import Mathlib

/- Verification of the CrisisForge AI frontend and its specified core.

   Shallow embedding notes.  JS numbers reaching the paths embedded here are
   integers or the result of a single division; a JS division with a zero
   denominator produces a non-finite number (NaN for 0/0, Infinity otherwise),
   which this development encodes as `none` in an `Option` result.  JS
   `Math.round` on a finite value rounds half toward positive infinity. -/

/-- JS Math.round on a finite value: round half toward positive infinity. -/
def jsRound (q : ℚ) : ℤ := ⌊q + 1/2⌋

/-- A hospital record as delivered by the capacity API, restricted to the
    fields the Reports page reads (api.ts `Hospital`). -/
structure Hospital where
  name : String
  region : String
  total_beds : ℕ
  occupied_beds : ℕ
deriving DecidableEq, Repr

/-- HospitalMap.tsx `getOccupancyPct`: `total > 0 ? Math.round((occupied / total) * 100) : 0`. -/
def getOccupancyPct (occupied total : ℕ) : ℤ :=
  if 0 < total then jsRound (((occupied : ℚ) / total) * 100) else 0

/-- HospitalMap.tsx `getStatusColor`: thresholds 90 / 75 / 50 on the rounded percentage. -/
def getStatusColor (pct : ℤ) : String :=
  if 90 ≤ pct then "#ef4444"
  else if 75 ≤ pct then "#f59e0b"
  else if 50 ≤ pct then "#06b6d4"
  else "#22c55e"

/-- HospitalMap.tsx `getStatusLabel`: thresholds 90 / 75 / 50 on the rounded percentage. -/
def getStatusLabel (pct : ℤ) : String :=
  if 90 ≤ pct then "CRITICAL"
  else if 75 ≤ pct then "WARNING"
  else if 50 ≤ pct then "MODERATE"
  else "STABLE"

/-- The color getStatusColor pairs with each getStatusLabel class. -/
def statusColorOf (label : String) : String :=
  if label = "CRITICAL" then "#ef4444"
  else if label = "WARNING" then "#f59e0b"
  else if label = "MODERATE" then "#06b6d4"
  else "#22c55e"

/-- Reports.tsx CSV row occupancy cell: `Math.round((h.occupied_beds / h.total_beds) * 100)`
    with no guard on the denominator; `none` encodes the non-finite JS result
    (NaN when occupied = total = 0, Infinity when occupied > 0 and total = 0). -/
def csvOccupancyCell (occupied total : ℕ) : Option ℤ :=
  if total = 0 then none else some (jsRound (((occupied : ℚ) / total) * 100))

/-- JS comparison `(occupied / total) >= num/den`: false on NaN, true on +Infinity,
    ordinary rational comparison otherwise. -/
def jsRatioGe (occupied total num den : ℕ) : Bool :=
  if total = 0 then occupied != 0 else decide (num * total ≤ den * occupied)

/-- Reports.tsx CSV status column:
    `ratio >= 0.9 ? CRITICAL : ratio >= 0.75 ? WARNING : STABLE` on the raw ratio. -/
def csvStatus (occupied total : ℕ) : String :=
  if jsRatioGe occupied total 9 10 then "CRITICAL"
  else if jsRatioGe occupied total 3 4 then "WARNING"
  else "STABLE"

/-- One row of the Reports.tsx CSV export (the derived cells kept as values;
    the occupancy cell is `none` when the JS number would be non-finite). -/
structure CsvRow where
  name : String
  region : String
  totalBeds : ℕ
  occupied : ℕ
  occupancyCell : Option ℤ
  status : String
deriving DecidableEq, Repr

/-- Reports.tsx CSV export body: one row per hospital, in list order. -/
def csvReportRows (hs : List Hospital) : List CsvRow :=
  hs.map fun h =>
    { name := h.name
      region := h.region
      totalBeds := h.total_beds
      occupied := h.occupied_beds
      occupancyCell := csvOccupancyCell h.occupied_beds h.total_beds
      status := csvStatus h.occupied_beds h.total_beds }

/-- Reports.tsx `regionData` keys: regions in first-occurrence order (JS object
    insertion order of the reduce accumulator). -/
def regionKeys (hs : List Hospital) : List String :=
  hs.foldl (fun acc h => if h.region ∈ acc then acc else acc ++ [h.region]) []

/-- Reports.tsx `regionData[r].beds`: total beds accumulated over the region. -/
def regionBedsSum (hs : List Hospital) (r : String) : ℕ :=
  ((hs.filter (fun h => h.region == r)).map Hospital.total_beds).sum

/-- Reports.tsx `regionData[r].patients`: occupied beds accumulated over the region. -/
def regionPatientsSum (hs : List Hospital) (r : String) : ℕ :=
  ((hs.filter (fun h => h.region == r)).map Hospital.occupied_beds).sum

/-- One entry of Reports.tsx `regionBarData`. -/
structure RegionBar where
  region : String
  capacity : ℕ
  occupied : ℕ
  utilization : Option ℤ
deriving DecidableEq, Repr

/-- Reports.tsx `regionBarData`: per region, capacity, occupancy and
    `Math.round((patients / beds) * 100)` with no guard on the denominator. -/
def regionBarData (hs : List Hospital) : List RegionBar :=
  (regionKeys hs).map fun r =>
    { region := r
      capacity := regionBedsSum hs r
      occupied := regionPatientsSum hs r
      utilization := csvOccupancyCell (regionPatientsSum hs r) (regionBedsSum hs r) }

/-- The UI theme (ThemeContext.tsx `Theme`). -/
inductive Theme where
  | dark
  | light
deriving DecidableEq, Repr

/-- ThemeContext.tsx initial state: `saved === 'light' ? 'light' : 'dark'`
    where `saved` is the persisted localStorage value (absent encoded as none). -/
def initTheme (saved : Option String) : Theme :=
  if saved = some "light" then Theme.light else Theme.dark

/-- ThemeContext.tsx `toggleTheme`: `prev === 'dark' ? 'light' : 'dark'`. -/
def toggleTheme (t : Theme) : Theme :=
  if t = Theme.dark then Theme.light else Theme.dark

/-- The auth state visible to App.tsx `ProtectedRoute` (AuthContext.tsx):
    the signed-in user (a uid, if any), the loading flag, and
    `isAuthEnabled = isFirebaseConfigured`. -/
structure AuthState where
  user : Option String
  loading : Bool
  isAuthEnabled : Bool
deriving DecidableEq, Repr

/-- What a route renders. -/
inductive Rendered where
  | page (path : String)
  | loadingScreen
  | loginScreen
deriving DecidableEq, Repr

/-- App.tsx `ProtectedRoute`: skip auth entirely when Firebase is not
    configured; otherwise show the loading screen while loading, the Login
    page when no user is present, and the wrapped page otherwise. -/
def protectedRoute (s : AuthState) (path : String) : Rendered :=
  if !s.isAuthEnabled then Rendered.page path
  else if s.loading then Rendered.loadingScreen
  else if s.user.isNone then Rendered.loginScreen
  else Rendered.page path

/-- App.tsx routes wrapped in `ProtectedRoute` (all routes except /login). -/
def protectedPaths : List String :=
  ["/", "/scenarios", "/compare", "/transfers", "/ai", "/telegram", "/map", "/reports"]

/-- StrategyComparator.tsx `CRISIS_OPTIONS` (key, label): the crisis types the
    strategy-comparison page lets the user select. -/
def CRISIS_OPTIONS : List (String × String) :=
  [("pandemic", "🦠 Pandemic"),
   ("earthquake", "🏚️ Earthquake"),
   ("flood", "🌊 Flood"),
   ("staff_shortage", "👨‍⚕️ Staff Shortage")]

/-- Modelled from the spec: the backend `GetScenarioPresets` operation (the
    FastAPI /api/scenarios endpoint is not under src/) returns the 5 fixed
    crisis presets listed in the spec and the repository README. -/
def specScenarioPresets : List String :=
  ["pandemic", "earthquake", "flood", "staff_shortage", "multi_hazard"]

/-- The part of a fetch response read by api.ts `request`. -/
structure HttpResponse where
  ok : Bool
  status : ℕ
  statusText : String
deriving DecidableEq, Repr

/-- api.ts `request`: on a non-ok response it throws a plain
    `Error` whose only payload is the message string
    "API Error: " followed by the status and statusText; the error channel
    therefore carries exactly that string. -/
def requestOutcome {α : Type} (r : HttpResponse) (body : α) : Except String α :=
  if r.ok then Except.ok body
  else Except.error ("API Error: " ++ toString r.status ++ " " ++ r.statusText)

/-- Modelled from the spec: a facility CapacitySnapshot (§3).  The backend
    TransferOptimizer is not under src/; facilities carry the four resource
    pairs plus a 1-D location from which pairwise distance is derived. -/
structure FacilitySnapshot where
  name : String
  region : String
  location : ℤ
  bedsTotal : ℕ
  bedsOccupied : ℕ
  icuTotal : ℕ
  icuOccupied : ℕ
  ventTotal : ℕ
  ventInUse : ℕ
  staffTotal : ℕ
  staffActive : ℕ
deriving DecidableEq, Repr

/-- Modelled from the spec: occupancy percent of one resource, 0 when total = 0 (§3). -/
def resourcePct (occupied total : ℕ) : ℕ :=
  if total = 0 then 0 else occupied * 100 / total

/-- Modelled from the spec: PressureScore, the weighted composite of the four
    occupancy ratios (§3); the weights are configuration data (§9), taken here
    as the representative values 0.4 / 0.3 / 0.2 / 0.1, which sum to 1. -/
def pressureScore (f : FacilitySnapshot) : ℕ :=
  (40 * resourcePct f.bedsOccupied f.bedsTotal
    + 30 * resourcePct f.icuOccupied f.icuTotal
    + 20 * resourcePct f.ventInUse f.ventTotal
    + 10 * resourcePct f.staffActive f.staffTotal) / 100

/-- Modelled from the spec: the four-state facility Status (§3). -/
inductive FacilityStatus where
  | critical
  | overloaded
  | stable
  | available
deriving DecidableEq, Repr

/-- Modelled from the spec: Status classification of a facility from its
    pressure score — critical at 90 and above, overloaded 75 to 89, stable
    50 to 74, available below 50 (§3). -/
def facilityStatus (f : FacilitySnapshot) : FacilityStatus :=
  if 90 ≤ pressureScore f then FacilityStatus.critical
  else if 75 ≤ pressureScore f then FacilityStatus.overloaded
  else if 50 ≤ pressureScore f then FacilityStatus.stable
  else FacilityStatus.available

/-- Free general-bed capacity of a facility. -/
def freeBeds (f : FacilitySnapshot) : ℕ := f.bedsTotal - f.bedsOccupied

/-- Modelled from the spec: the network target threshold, default 95%
    occupancy with a reserved 5% buffer (§4.4). -/
def targetOccupied (f : FacilitySnapshot) : ℕ := f.bedsTotal * 95 / 100

/-- Modelled from the spec: a sender's excess above the target threshold (§4.4). -/
def senderExcess (f : FacilitySnapshot) : ℕ := f.bedsOccupied - targetOccupied f

/-- Distance in km between two facilities, derived from their locations. -/
def distanceKm (a b : FacilitySnapshot) : ℕ := (a.location - b.location).natAbs

/-- Modelled from the spec: the per-transfer batch cap of §4.4, a
    configuration constant, taken here as 20 patients. -/
def batchCap : ℕ := 20

/-- Modelled from the spec: the match score used to rank candidate receivers —
    higher for nearer receivers (inverse distance), more free-capacity
    headroom, and lower receiver pressure (§4.4). -/
def matchScore (s r : FacilitySnapshot) (freeRemaining : ℕ) : ℕ :=
  freeRemaining * 100 / (distanceKm s r + 1) + (100 - pressureScore r)

/-- Modelled from the spec: recommendation priority derived from the sender's
    Status — critical senders give critical priority (§4.4). -/
def priorityOf (f : FacilitySnapshot) : String :=
  match facilityStatus f with
  | FacilityStatus.critical => "critical"
  | FacilityStatus.overloaded => "high"
  | _ => "medium"

/-- Modelled from the spec: one TransferRecommendation (§3), keeping the
    sender and receiver snapshots it was emitted from. -/
structure TransferRec where
  sender : FacilitySnapshot
  receiver : FacilitySnapshot
  patients : ℕ
  priority : String
  score : ℕ
deriving DecidableEq, Repr

/-- Modelled from the spec: pick the feasible receiver (free capacity
    remaining > 0) with the highest match score for a sender (§4.4 step 3);
    the pool pairs each receiver with its remaining free capacity. -/
def pickReceiver (s : FacilitySnapshot) (pool : List (FacilitySnapshot × ℕ)) :
    Option (FacilitySnapshot × ℕ) :=
  (pool.filter (fun e => decide (0 < e.2))).argmax (fun e => matchScore s e.1 e.2)

/-- Deduct an assigned patient count from the chosen pool entry. -/
def updatePool (pool : List (FacilitySnapshot × ℕ)) (chosen : FacilitySnapshot × ℕ)
    (p : ℕ) : List (FacilitySnapshot × ℕ) :=
  pool.map fun e => if e = chosen then (e.1, e.2 - p) else e

/-- Modelled from the spec: the greedy assignment loop of §4.4 steps 4 and 5 —
    each sender in turn is paired with its best-matching feasible receiver and
    sends min(excess above target, receiver free capacity remaining, batch
    cap) patients; the receiver pool capacity is decremented as it is used. -/
def recommendAux : List FacilitySnapshot → List (FacilitySnapshot × ℕ) → List TransferRec
  | [], _ => []
  | s :: rest, pool =>
    match pickReceiver s pool with
    | none => recommendAux rest pool
    | some e =>
      let p := min (senderExcess s) (min e.2 batchCap)
      if p = 0 then recommendAux rest pool
      else
        { sender := s, receiver := e.1, patients := p,
          priority := priorityOf s, score := matchScore s e.1 e.2 }
          :: recommendAux rest (updatePool pool e p)

/-- Modelled from the spec: the TransferResult returned by GetTransferPlan —
    the ranked, truncated recommendation list and the total patient count (§6). -/
structure TransferResult where
  recommendations : List TransferRec
  totalPatients : ℕ
deriving DecidableEq, Repr

/-- Modelled from the spec: GetTransferPlan (§4.4, §6) — senders are the
    facilities with Status critical or overloaded (pressure at least 75),
    receivers those with Status stable or available; recommendations are
    ranked by match score and truncated to the top maxRecommendations. -/
def getTransferPlan (facilities : List FacilitySnapshot)
    (maxRecommendations : ℕ) : TransferResult :=
  let senders := facilities.filter (fun f => decide (75 ≤ pressureScore f))
  let pool := (facilities.filter (fun f => decide (pressureScore f < 75))).map
    (fun f => (f, freeBeds f))
  let ranked := (recommendAux senders pool).insertionSort
    (fun a b => b.score ≤ a.score)
  let recs := ranked.take maxRecommendations
  { recommendations := recs, totalPatients := (recs.map TransferRec.patients).sum }

/-- Modelled from the spec: the request boundary for GetTransferPlan threads
    an explicit server state; the operation is a pure, stateless function of
    its inputs (§5), so the state passes through unchanged. -/
def getTransferPlanCall (st : ℕ) (facilities : List FacilitySnapshot)
    (maxRecommendations : ℕ) : TransferResult × ℕ :=
  (getTransferPlan facilities maxRecommendations, st)

/-- Modelled from the spec: one day of a ForecastSeries (§3) as produced by
    the Monte Carlo ForecastEngine (§4.1), which is not under src/ — the
    percentiles are order statistics of the day's sampled paths and the mean
    is the sample mean. -/
structure ForecastDay where
  mean : ℚ
  p10 : ℕ
  p25 : ℕ
  p75 : ℕ
  p90 : ℕ
deriving DecidableEq, Repr

/-- Nearest-rank index of the q-th percentile among n sorted samples. -/
def percentileIndex (n q : ℕ) : ℕ := q * (n - 1) / 100

/-- Modelled from the spec: the empirical q-th percentile of the sampled
    paths, taken as an order statistic of the sorted samples (§4.1). -/
def orderStat (samples : List ℕ) (q : ℕ) : ℕ :=
  (samples.insertionSort (· ≤ ·)).getD (percentileIndex samples.length q) 0

/-- Modelled from the spec: one ForecastSeries day summarising a day's
    sampled paths (§4.1). -/
def forecastDay (samples : List ℕ) : ForecastDay :=
  { mean := (samples.sum : ℚ) / samples.length
    p10 := orderStat samples 10
    p25 := orderStat samples 25
    p75 := orderStat samples 75
    p90 := orderStat samples 90 }

/-- A 200-path sample set admissible for the spec's Monte Carlo engine
    (§4.1 requires at least 200 independent paths per day). -/
def skewedSamples : List ℕ := List.replicate 199 0 ++ [20000]

/-- A hospital record whose bed total is zero, as the capacity provider may
    deliver (spec Scenario 2). -/
def zeroHospital : Hospital :=
  { name := "Zero Hospital", region := "West", total_beds := 0, occupied_beds := 0 }

/-- C1: the claim states every derived percentage in the CSV report rows and
    the per-region utilization figures is finite and clamped into range for
    any input hospital list, including one containing a hospital or region
    with zero total beds.  Evaluating the code at such a list: the CSV
    occupancy cell and the region utilization are the non-finite JS value
    NaN (encoded none), not a clamped finite number — the code contradicts
    the spec's clamping guarantee here. -/
theorem C1_report_nonfinite_at_zero_beds :
    (csvReportRows [zeroHospital]).map CsvRow.occupancyCell = [none] ∧
    (regionBarData [zeroHospital]).map RegionBar.utilization = [none] := by
  decide

/-- C2: the claim states that wherever an occupancy percentage is computed,
    total = 0 yields exactly 0.  HospitalMap's getOccupancyPct does return 0
    at total = 0, but the Reports CSV row computes the same percentage
    without the guard and produces a non-finite value (none) at total = 0 —
    the code diverges from the claim at that input. -/
theorem C2_zero_total_divergence :
    getOccupancyPct 7 0 = 0 ∧ csvOccupancyCell 7 0 = none := by
  decide

/-- C3 counterexample: not every place that classifies a facility uses the
    same four classes — at 60% and 40% occupancy the HospitalMap classifier
    distinguishes MODERATE from STABLE, while the Reports CSV status column
    assigns the same class STABLE to both, so it has no fourth class. -/
theorem C3_reports_collapses_classes :
    getStatusLabel 60 = "MODERATE" ∧ getStatusLabel 40 = "STABLE" ∧
    csvStatus 60 100 = "STABLE" ∧ csvStatus 40 100 = "STABLE" := by
  decide

/-- C3 amended: HospitalMap's getStatusLabel is a total four-class
    classification with exactly the claimed boundaries (≥ 90 critical,
    75 to 89 warning, 50 to 74 moderate, < 50 stable) and getStatusColor
    induces the same partition; the Reports CSV status column instead uses
    only the three classes CRITICAL, WARNING and STABLE. -/
theorem C3_map_fourclass_csv_threeclass :
    (∀ pct : ℤ,
      ((getStatusLabel pct = "CRITICAL") ↔ 90 ≤ pct) ∧
      ((getStatusLabel pct = "WARNING") ↔ 75 ≤ pct ∧ pct < 90) ∧
      ((getStatusLabel pct = "MODERATE") ↔ 50 ≤ pct ∧ pct < 75) ∧
      ((getStatusLabel pct = "STABLE") ↔ pct < 50) ∧
      getStatusColor pct = statusColorOf (getStatusLabel pct)) ∧
    (∀ occupied total : ℕ,
      csvStatus occupied total = "CRITICAL" ∨
      csvStatus occupied total = "WARNING" ∨
      csvStatus occupied total = "STABLE") := by
  constructor
  · intro pct
    unfold getStatusLabel getStatusColor statusColorOf
    split_ifs <;> refine ⟨?_, ?_, ?_, ?_, ?_⟩ <;> simp_all <;> omega
  · intro occupied total
    unfold csvStatus
    split_ifs <;> simp

/-- C10: the theme state is always exactly dark or light; the initializer
    yields light only when the persisted value is exactly the string light
    and dark for every other persisted value; and toggleTheme is an
    involution. -/
theorem C10_theme_contract :
    ∀ (saved : Option String) (t : Theme),
      (initTheme saved = Theme.light ↔ saved = some "light") ∧
      toggleTheme (toggleTheme t) = t ∧
      (t = Theme.dark ∨ t = Theme.light) := by
  intro saved t
  refine ⟨?_, ?_, ?_⟩
  · unfold initTheme
    split_ifs with h
    · simp [h]
    · simp [h]
  · cases t <;> rfl
  · cases t
    · exact Or.inl rfl
    · exact Or.inr rfl

/-- C4 counterexample: with Firebase unconfigured (isAuthEnabled false) and
    no signed-in user, ProtectedRoute renders the protected Dashboard page
    anyway — protected content is shown without an authenticated user. -/
theorem C4_unconfigured_auth_bypass :
    protectedRoute { user := none, loading := false, isAuthEnabled := false } "/"
      = Rendered.page "/" ∧
    "/" ∈ protectedPaths ∧
    (AuthState.user { user := none, loading := false, isAuthEnabled := false }) = none := by
  refine ⟨rfl, ?_, rfl⟩
  decide

/-- C4 amended: only when the identity layer is enabled (Firebase configured)
    does ProtectedRoute render protected page content solely for an
    authenticated user; when it is not configured, auth is skipped and every
    visitor sees the content. -/
theorem C4_gating_when_auth_enabled :
    ∀ (s : AuthState) (path : String),
      s.isAuthEnabled = true →
      protectedRoute s path = Rendered.page path →
      s.user.isSome = true := by
  intro s path hEn hRender
  obtain ⟨u, l, e⟩ := s
  subst hEn
  cases l
  · cases u
    · simp [protectedRoute] at hRender
    · rfl
  · simp [protectedRoute] at hRender

/-- C4 witness: a concrete enabled state with a signed-in user, gated
    through the amended theorem. -/
theorem C4_gating_witness :
    (AuthState.user { user := some "uid-1", loading := false, isAuthEnabled := true }).isSome
      = true :=
  C4_gating_when_auth_enabled
    { user := some "uid-1", loading := false, isAuthEnabled := true } "/" rfl rfl

/-- C5 counterexample: the StrategyComparator crisis selector does not offer
    multi_hazard, one of the 5 fixed presets, so the selectable set on that
    page is not the claimed 5-element set. -/
theorem C5_multi_hazard_not_selectable :
    ("multi_hazard" ∉ CRISIS_OPTIONS.map Prod.fst) ∧
    "multi_hazard" ∈ specScenarioPresets := by
  decide

/-- C5 amended: the backend preset list has the 5 fixed crisis types, but the
    StrategyComparator page offers exactly the 4 options pandemic,
    earthquake, flood and staff_shortage — a strict subset of the presets. -/
theorem C5_comparator_offers_four :
    CRISIS_OPTIONS.map Prod.fst = ["pandemic", "earthquake", "flood", "staff_shortage"] ∧
    specScenarioPresets.length = 5 ∧
    CRISIS_OPTIONS.map Prod.fst ⊆ specScenarioPresets := by
  refine ⟨rfl, rfl, ?_⟩
  decide

/-- C6 counterexample: a validation-style failure (HTTP 422) and a
    dependency-style failure (HTTP 503) both surface as the same generic
    error whose only payload is the message string; erasing the
    human-readable message leaves the two errors identical, so no
    machine-readable kind distinguishes them. -/
theorem C6_error_kind_collapsed :
    requestOutcome { ok := false, status := 422, statusText := "Unprocessable Entity" } ()
      = Except.error "API Error: 422 Unprocessable Entity" ∧
    requestOutcome { ok := false, status := 503, statusText := "Service Unavailable" } ()
      = Except.error "API Error: 503 Service Unavailable" ∧
    (requestOutcome { ok := false, status := 422, statusText := "Unprocessable Entity" } ()).mapError
        (fun _ => ())
      = (requestOutcome { ok := false, status := 503, statusText := "Service Unavailable" } ()).mapError
        (fun _ => ()) := by
  refine ⟨rfl, rfl, rfl⟩

/-- C6 amended: every failed request surfaces as one generic error whose
    message embeds the HTTP status code and status text; validation and
    dependency failures are distinguishable only by parsing that message
    string, not by a separate machine-readable kind. -/
theorem C6_single_generic_error :
    ∀ (r : HttpResponse), r.ok = false →
      requestOutcome r () =
        Except.error ("API Error: " ++ toString r.status ++ " " ++ r.statusText) := by
  intro r h
  unfold requestOutcome
  rw [h]
  rfl

/-- C6 witness: the amended theorem applied at a concrete 404 response. -/
theorem C6_single_generic_error_witness :
    requestOutcome { ok := false, status := 404, statusText := "Not Found" } () =
      Except.error ("API Error: " ++ toString (404 : ℕ) ++ " " ++ "Not Found") :=
  C6_single_generic_error { ok := false, status := 404, statusText := "Not Found" } rfl

/-- C7: GetTransferPlan is idempotent in its input — threading the explicit
    server state through two successive calls on the same facility list
    yields identical TransferResults (same recommendations in the same
    order, same counts), and the state is unchanged by the call. -/
theorem C7_transfer_plan_idempotent :
    ∀ (st : ℕ) (facilities : List FacilitySnapshot) (maxRecommendations : ℕ),
      (getTransferPlanCall st facilities maxRecommendations).1
        = (getTransferPlanCall
            (getTransferPlanCall st facilities maxRecommendations).2
            facilities maxRecommendations).1 ∧
      (getTransferPlanCall st facilities maxRecommendations).2 = st := by
  intro st facilities maxRecommendations
  exact ⟨rfl, rfl⟩

/-- The receiver picked for a sender is an entry of the pool. -/
lemma pickReceiver_mem (s : FacilitySnapshot) (pool : List (FacilitySnapshot × ℕ))
    (e : FacilitySnapshot × ℕ) (h : pickReceiver s pool = some e) : e ∈ pool := by
  unfold pickReceiver at h
  exact List.mem_of_mem_filter (List.argmax_mem h)

/-- Deducting an assignment preserves the pool invariant: every entry's
    remaining free capacity stays below the facility's free beds. -/
lemma updatePool_invariant (pool : List (FacilitySnapshot × ℕ))
    (chosen : FacilitySnapshot × ℕ) (p : ℕ)
    (hinv : ∀ e ∈ pool, e.2 ≤ freeBeds e.1) :
    ∀ e ∈ updatePool pool chosen p, e.2 ≤ freeBeds e.1 := by
  intro e he
  unfold updatePool at he
  obtain ⟨x, hx, hxe⟩ := List.mem_map.mp he
  subst hxe
  by_cases hc : x = chosen
  · simp only [if_pos hc]
    exact le_trans (Nat.sub_le _ _) (hinv x hx)
  · simp only [if_neg hc]
    exact hinv x hx

/-- Every recommendation emitted by the greedy loop moves at most the
    sender's excess above the target threshold and at most the receiver's
    free capacity, provided the pool starts within free capacity. -/
lemma recommendAux_bounds :
    ∀ (senders : List FacilitySnapshot) (pool : List (FacilitySnapshot × ℕ)),
      (∀ e ∈ pool, e.2 ≤ freeBeds e.1) →
      ∀ r ∈ recommendAux senders pool,
        r.patients ≤ senderExcess r.sender ∧ r.patients ≤ freeBeds r.receiver := by
  intro senders
  induction senders with
  | nil =>
    intro pool hinv r hr
    simp [recommendAux] at hr
  | cons s rest ih =>
    intro pool hinv r hr
    cases hpick : pickReceiver s pool with
    | none =>
      simp only [recommendAux, hpick] at hr
      exact ih pool hinv r hr
    | some e =>
      simp only [recommendAux, hpick] at hr
      by_cases hp : min (senderExcess s) (min e.2 batchCap) = 0
      · rw [if_pos hp] at hr
        exact ih pool hinv r hr
      · rw [if_neg hp] at hr
        rcases List.mem_cons.mp hr with hhead | htail
        · subst hhead
          refine ⟨min_le_left _ _, ?_⟩
          exact le_trans (le_trans (min_le_right _ _) (min_le_left _ _))
            (hinv e (pickReceiver_mem s pool e hpick))
        · exact ih (updatePool pool e (min (senderExcess s) (min e.2 batchCap)))
            (updatePool_invariant pool e _ hinv) r htail

/-- C8: every TransferRecommendation emitted by GetTransferPlan moves at most
    the sending facility's excess above the target threshold and at most the
    receiving facility's free capacity. -/
theorem C8_transfer_bounds :
    ∀ (facilities : List FacilitySnapshot) (maxRecommendations : ℕ),
      ∀ r ∈ (getTransferPlan facilities maxRecommendations).recommendations,
        r.patients ≤ senderExcess r.sender ∧ r.patients ≤ freeBeds r.receiver := by
  intro facilities maxRecommendations r hr
  unfold getTransferPlan at hr
  simp only at hr
  have h1 : r ∈ (recommendAux
      (facilities.filter fun f => decide (75 ≤ pressureScore f))
      ((facilities.filter fun f => decide (pressureScore f < 75)).map
        fun f => (f, freeBeds f))).insertionSort (fun a b => b.score ≤ a.score) :=
    List.take_subset _ _ hr
  have h2 := (List.mem_insertionSort _).mp h1
  refine recommendAux_bounds _ _ ?_ r h2
  intro e he
  obtain ⟨f, _, rfl⟩ := List.mem_map.mp he
  exact le_refl _

/-- A concrete overloaded sender: all four resources at 96 of 100. -/
def wSender : FacilitySnapshot :=
  { name := "Central", region := "East", location := 0,
    bedsTotal := 100, bedsOccupied := 96, icuTotal := 100, icuOccupied := 96,
    ventTotal := 100, ventInUse := 96, staffTotal := 100, staffActive := 96 }

/-- A concrete available receiver: all four resources at 40 of 100, 10 km away. -/
def wReceiver : FacilitySnapshot :=
  { name := "North", region := "East", location := 10,
    bedsTotal := 100, bedsOccupied := 40, icuTotal := 100, icuOccupied := 40,
    ventTotal := 100, ventInUse := 40, staffTotal := 100, staffActive := 40 }

/-- The recommendation GetTransferPlan emits for that two-facility network. -/
def wRecommendation : TransferRec :=
  { sender := wSender, receiver := wReceiver, patients := 1,
    priority := "critical", score := 605 }

/-- C8 witness: the bounds theorem applied to the concrete recommendation
    emitted for the two-facility network above. -/
theorem C8_transfer_bounds_witness :
    wRecommendation.patients ≤ senderExcess wRecommendation.sender ∧
    wRecommendation.patients ≤ freeBeds wRecommendation.receiver :=
  C8_transfer_bounds [wSender, wReceiver] 6 wRecommendation (by decide)

/-- The nearest-rank percentile index stays inside the sample list. -/
lemma percentileIndex_lt (n q : ℕ) (hn : 0 < n) (hq : q ≤ 100) :
    percentileIndex n q < n := by
  unfold percentileIndex
  have h1 : q * (n - 1) ≤ 100 * (n - 1) := Nat.mul_le_mul_right _ hq
  have h2 : q * (n - 1) / 100 ≤ 100 * (n - 1) / 100 := Nat.div_le_div_right h1
  have h3 : 100 * (n - 1) / 100 = n - 1 := Nat.mul_div_cancel_left _ (by norm_num)
  omega

/-- Order statistics of one sample list are monotone in the percentile rank. -/
lemma orderStat_mono (samples : List ℕ) (hne : samples ≠ [])
    {q1 q2 : ℕ} (h12 : q1 ≤ q2) (h2 : q2 ≤ 100) :
    orderStat samples q1 ≤ orderStat samples q2 := by
  unfold orderStat
  have hpos : 0 < samples.length := List.length_pos.mpr hne
  have hlen : (samples.insertionSort (· ≤ ·)).length = samples.length :=
    List.length_insertionSort _ _
  have hi1 : percentileIndex samples.length q1 < (samples.insertionSort (· ≤ ·)).length := by
    rw [hlen]; exact percentileIndex_lt _ _ hpos (le_trans h12 h2)
  have hi2 : percentileIndex samples.length q2 < (samples.insertionSort (· ≤ ·)).length := by
    rw [hlen]; exact percentileIndex_lt _ _ hpos h2
  rw [List.getD_eq_getElem _ _ hi1, List.getD_eq_getElem _ _ hi2]
  have hsorted : (samples.insertionSort (· ≤ ·)).Sorted (· ≤ ·) :=
    List.sorted_insertionSort _ _
  have hidx : percentileIndex samples.length q1 ≤ percentileIndex samples.length q2 :=
    Nat.div_le_div_right (Nat.mul_le_mul_right _ h12)
  have := hsorted.rel_get_of_le
    (a := ⟨percentileIndex samples.length q1, hi1⟩)
    (b := ⟨percentileIndex samples.length q2, hi2⟩) hidx
  simpa [List.get_eq_getElem] using this

set_option maxRecDepth 8000 in
/-- C9 counterexample: a day built from 200 sampled paths (the spec's minimum
    path count) whose draws are heavily skewed — the empirical order
    statistics give p25 = p75 = 0 while the sample mean is 100, so the
    claimed ordering p25 ≤ mean ≤ p75 fails for that day. -/
theorem C9_mean_escapes_interquartile :
    skewedSamples.length = 200 ∧
    ¬ (((forecastDay skewedSamples).p25 : ℚ) ≤ (forecastDay skewedSamples).mean ∧
       (forecastDay skewedSamples).mean ≤ ((forecastDay skewedSamples).p75 : ℚ)) := by
  constructor
  · simp [skewedSamples]
  · intro h
    have hp : (forecastDay skewedSamples).p75 = 0 := by decide
    have hsum : skewedSamples.sum = 20000 := by simp [skewedSamples]
    have hlen : skewedSamples.length = 200 := by simp [skewedSamples]
    have hm : (forecastDay skewedSamples).mean = 100 := by
      show ((skewedSamples.sum : ℚ) / skewedSamples.length) = 100
      rw [hsum, hlen]
      norm_num
    rw [hp, hm] at h
    norm_num at h

/-- C9 amended: for every nonempty day sample set, the order-statistic
    percentiles of the forecast day are ordered p10 ≤ p25 ≤ p75 ≤ p90; the
    sample mean is not in general bracketed by p25 and p75. -/
theorem C9_percentile_order :
    ∀ samples : List ℕ, samples ≠ [] →
      (forecastDay samples).p10 ≤ (forecastDay samples).p25 ∧
      (forecastDay samples).p25 ≤ (forecastDay samples).p75 ∧
      (forecastDay samples).p75 ≤ (forecastDay samples).p90 := by
  intro samples hne
  refine ⟨?_, ?_, ?_⟩
  · exact orderStat_mono samples hne (by norm_num) (by norm_num)
  · exact orderStat_mono samples hne (by norm_num) (by norm_num)
  · exact orderStat_mono samples hne (by norm_num) (by norm_num)

/-- C9 witness: the percentile ordering theorem applied to a concrete
    three-path day. -/
theorem C9_percentile_order_witness :
    (forecastDay [3, 1, 2]).p10 ≤ (forecastDay [3, 1, 2]).p25 ∧
    (forecastDay [3, 1, 2]).p25 ≤ (forecastDay [3, 1, 2]).p75 ∧
    (forecastDay [3, 1, 2]).p75 ≤ (forecastDay [3, 1, 2]).p90 :=
  C9_percentile_order [3, 1, 2] (by decide)
